import Mathlib

/-!
Verification of the P&L calculation engine of the `falcone-pnl` repository
(`src/app.py`).  The engine is the pure function `compute_pnl` (lines 24-81)
together with the sensitivity sweep loop (lines 349-361).  All arithmetic is
modelled over `ℚ`; the two possibly-undefined outputs (`break_even_sales`,
`safety_ratio`, which Python represents with `None`) are modelled as
`Option ℚ`.
-/

/-- The parameter dictionary built at lines 208-231 of `src/app.py`:
one field per key, all numeric. -/
structure Params where
  days_open_per_week : ℚ
  weeks_per_month : ℚ
  menus_per_day : ℚ
  cafe_tickets_per_day : ℚ
  shop_tickets_per_day : ℚ
  menu_price : ℚ
  cafe_ticket : ℚ
  shop_ticket : ℚ
  menu_food_cost_unit : ℚ
  cafe_food_cost_pct : ℚ
  shop_food_cost_pct : ℚ
  cook_gross_salary : ℚ
  partner_gross_salary : ℚ
  ss_factor : ℚ
  partner_cash_extra : ℚ
  other_labor_cost : ℚ
  rent : ℚ
  utilities : ℚ
  insurance : ℚ
  accounting : ℚ
  tpv_reservations : ℚ
  fixed_overheads : ℚ

/-- `open_days = params["days_open_per_week"] * params["weeks_per_month"]`
(line 26). -/
def open_days (p : Params) : ℚ := p.days_open_per_week * p.weeks_per_month

/-- `rev_menu` (line 29). -/
def rev_menu (p : Params) : ℚ := p.menus_per_day * p.menu_price * open_days p

/-- `rev_cafe` (line 30). -/
def rev_cafe (p : Params) : ℚ :=
  p.cafe_tickets_per_day * p.cafe_ticket * open_days p

/-- `rev_shop` (line 31). -/
def rev_shop (p : Params) : ℚ :=
  p.shop_tickets_per_day * p.shop_ticket * open_days p

/-- `total_revenue = rev_menu + rev_cafe + rev_shop` (line 32). -/
def total_revenue (p : Params) : ℚ := rev_menu p + rev_cafe p + rev_shop p

/-- `food_menu` (line 35). -/
def food_menu (p : Params) : ℚ :=
  p.menus_per_day * p.menu_food_cost_unit * open_days p

/-- `food_cafe = rev_cafe * cafe_food_cost_pct` (line 36). -/
def food_cafe (p : Params) : ℚ := rev_cafe p * p.cafe_food_cost_pct

/-- `food_shop = rev_shop * shop_food_cost_pct` (line 37). -/
def food_shop (p : Params) : ℚ := rev_shop p * p.shop_food_cost_pct

/-- `total_food_cost = food_menu + food_cafe + food_shop` (line 38). -/
def total_food_cost (p : Params) : ℚ := food_menu p + food_cafe p + food_shop p

/-- `gross_salaries = cook_gross_salary + partner_gross_salary` (line 41). -/
def gross_salaries (p : Params) : ℚ :=
  p.cook_gross_salary + p.partner_gross_salary

/-- `labor_ss = gross_salaries * (ss_factor - 1.0)` (line 42). -/
def labor_ss (p : Params) : ℚ := gross_salaries p * (p.ss_factor - 1)

/-- `labor_total = gross_salaries + labor_ss + partner_cash_extra +
other_labor_cost` (line 43). -/
def labor_total (p : Params) : ℚ :=
  gross_salaries p + labor_ss p + p.partner_cash_extra + p.other_labor_cost

/-- `fixed_cost_total` as the six-term sum of lines 46-53. -/
def fixed_cost_total (p : Params) : ℚ :=
  p.rent + p.utilities + p.insurance + p.accounting + p.tpv_reservations
    + p.fixed_overheads

/-- `gross_profit = total_revenue - total_food_cost` (line 56). -/
def gross_profit (p : Params) : ℚ := total_revenue p - total_food_cost p

/-- `gross_margin_pct = gross_profit / total_revenue if total_revenue > 0
else 0.0` (line 57). -/
def gross_margin_pct (p : Params) : ℚ :=
  if 0 < total_revenue p then gross_profit p / total_revenue p else 0

/-- `ebitda = gross_profit - labor_total - fixed_cost_total` (line 58). -/
def ebitda (p : Params) : ℚ :=
  gross_profit p - labor_total p - fixed_cost_total p

/-- `break_even_sales = (labor_total + fixed_cost_total) / gross_margin_pct
if gross_margin_pct > 0 else None` (line 60). -/
def break_even_sales (p : Params) : Option ℚ :=
  if 0 < gross_margin_pct p then
    some ((labor_total p + fixed_cost_total p) / gross_margin_pct p)
  else
    none

/-- `safety_ratio = total_revenue / break_even_sales if break_even_sales and
break_even_sales > 0 else None` (line 61).  Python truthiness of the float
`break_even_sales` is the conjunct `b ≠ 0`; `None` is falsy. -/
def safety_ratio (p : Params) : Option ℚ :=
  match break_even_sales p with
  | none => none
  | some b => if b ≠ 0 ∧ 0 < b then some (total_revenue p / b) else none

/-- The `results` dictionary returned by `compute_pnl` (lines 63-80). -/
structure PnlResult where
  open_days : ℚ
  rev_menu : ℚ
  rev_cafe : ℚ
  rev_shop : ℚ
  total_revenue : ℚ
  food_menu : ℚ
  food_cafe : ℚ
  food_shop : ℚ
  total_food_cost : ℚ
  labor_total : ℚ
  fixed_cost_total : ℚ
  gross_profit : ℚ
  gross_margin_pct : ℚ
  ebitda : ℚ
  break_even_sales : Option ℚ
  safety_ratio : Option ℚ

/-- `compute_pnl(params)` (lines 24-81 of `src/app.py`). -/
def compute_pnl (p : Params) : PnlResult :=
  { open_days := open_days p
    rev_menu := rev_menu p
    rev_cafe := rev_cafe p
    rev_shop := rev_shop p
    total_revenue := total_revenue p
    food_menu := food_menu p
    food_cafe := food_cafe p
    food_shop := food_shop p
    total_food_cost := total_food_cost p
    labor_total := labor_total p
    fixed_cost_total := fixed_cost_total p
    gross_profit := gross_profit p
    gross_margin_pct := gross_margin_pct p
    ebitda := ebitda p
    break_even_sales := break_even_sales p
    safety_ratio := safety_ratio p }

/-- Division as Python's `/` behaves at runtime: a zero denominator raises
`ZeroDivisionError`, modelled as `none`. -/
def checkedDiv (a b : ℚ) : Option ℚ := if b = 0 then none else some (a / b)

/-- `compute_pnl` re-traced with every division routed through `checkedDiv`,
so that `none` marks a run in which some division would raise
`ZeroDivisionError`.  The branching mirrors lines 57, 60 and 61 of
`src/app.py` exactly. -/
def compute_pnl_checked (p : Params) : Option PnlResult :=
  Option.bind
    (if 0 < total_revenue p then
      checkedDiv (gross_profit p) (total_revenue p)
    else
      some 0) fun gmp =>
  Option.bind
    (if 0 < gmp then
      Option.bind (checkedDiv (labor_total p + fixed_cost_total p) gmp)
        fun v => some (some v)
    else
      some none) fun bes =>
  Option.bind
    (match bes with
    | none => some none
    | some b =>
      if b ≠ 0 ∧ 0 < b then
        Option.bind (checkedDiv (total_revenue p) b) fun v => some (some v)
      else
        some none) fun sr =>
  some
    { open_days := open_days p
      rev_menu := rev_menu p
      rev_cafe := rev_cafe p
      rev_shop := rev_shop p
      total_revenue := total_revenue p
      food_menu := food_menu p
      food_cafe := food_cafe p
      food_shop := food_shop p
      total_food_cost := total_food_cost p
      labor_total := labor_total p
      fixed_cost_total := fixed_cost_total p
      gross_profit := gross_profit p
      gross_margin_pct := gmp
      ebitda := ebitda p
      break_even_sales := bes
      safety_ratio := sr }

/-- The delta grid `[-2, 0, 2]` used for both swept fields
(lines 350-351 of `src/app.py`). -/
def sweep_deltas : List ℚ := [-2, 0, 2]

/-- One sweep cell's parameter set (lines 352-354): a copy of the base with
`menus_per_day` and `shop_tickets_per_day` perturbed and floored at zero. -/
def sweep_params (base : Params) (dm ds : ℚ) : Params :=
  { base with
    menus_per_day := max 0 (base.menus_per_day + dm)
    shop_tickets_per_day := max 0 (base.shop_tickets_per_day + ds) }

/-- The sensitivity rows built by the nested loop of lines 349-361:
outer loop over `delta_menus`, inner loop over `delta_shop`, each cell
evaluating `compute_pnl` on its own perturbed copy of the base. -/
def sens_rows (base : Params) : List (ℚ × ℚ × PnlResult) :=
  sweep_deltas.flatMap fun dm =>
    sweep_deltas.map fun ds => (dm, ds, compute_pnl (sweep_params base dm ds))

/-- The default values of the input widgets (lines 150-205 of `src/app.py`):
5 days, 4.3 weeks, 18 menus at 13 €, 20 cafe tickets at 5 €, 5 shop tickets
at 15 €, and the default cost structure. -/
def defaultParams : Params where
  days_open_per_week := 5
  weeks_per_month := 43 / 10
  menus_per_day := 18
  cafe_tickets_per_day := 20
  shop_tickets_per_day := 5
  menu_price := 13
  cafe_ticket := 5
  shop_ticket := 15
  menu_food_cost_unit := 3
  cafe_food_cost_pct := 3 / 10
  shop_food_cost_pct := 7 / 20
  cook_gross_salary := 1300
  partner_gross_salary := 1300
  ss_factor := 33 / 25
  partner_cash_extra := 400
  other_labor_cost := 100
  rent := 920
  utilities := 450
  insurance := 60
  accounting := 120
  tpv_reservations := 80
  fixed_overheads := 700

/-- The all-zero parameter set (the degenerate scenario of spec §8). -/
def zeroParams : Params where
  days_open_per_week := 0
  weeks_per_month := 0
  menus_per_day := 0
  cafe_tickets_per_day := 0
  shop_tickets_per_day := 0
  menu_price := 0
  cafe_ticket := 0
  shop_ticket := 0
  menu_food_cost_unit := 0
  cafe_food_cost_pct := 0
  shop_food_cost_pct := 0
  cook_gross_salary := 0
  partner_gross_salary := 0
  ss_factor := 0
  partner_cash_extra := 0
  other_labor_cost := 0
  rent := 0
  utilities := 0
  insurance := 0
  accounting := 0
  tpv_reservations := 0
  fixed_overheads := 0

/-- C1: `compute_pnl` returns `break_even_sales` equal to
`(labor_total + fixed_cost_total) / gross_margin_pct` when
`gross_margin_pct > 0`, and an explicit `none` when
`gross_margin_pct ≤ 0`, in particular whenever `total_revenue = 0`. -/
theorem break_even_sales_definedness (p : Params) :
    (0 < (compute_pnl p).gross_margin_pct →
      (compute_pnl p).break_even_sales =
        some (((compute_pnl p).labor_total + (compute_pnl p).fixed_cost_total)
          / (compute_pnl p).gross_margin_pct)) ∧
    ((compute_pnl p).gross_margin_pct ≤ 0 →
      (compute_pnl p).break_even_sales = none) ∧
    ((compute_pnl p).total_revenue = 0 →
      (compute_pnl p).break_even_sales = none) := by
  refine ⟨fun h => ?_, fun h => ?_, fun h => ?_⟩
  · simp only [compute_pnl] at h ⊢
    rw [break_even_sales, if_pos h]
  · simp only [compute_pnl] at h ⊢
    rw [break_even_sales, if_neg (not_lt.mpr h)]
  · simp only [compute_pnl] at h ⊢
    have hg : gross_margin_pct p = 0 := by
      rw [gross_margin_pct, if_neg]
      rw [h]
      exact lt_irrefl 0
    rw [break_even_sales, if_neg]
    rw [hg]
    exact lt_irrefl 0

/-- C2: `compute_pnl` returns `safety_ratio = total_revenue / break_even_sales`
exactly when `break_even_sales` is defined and strictly positive, and an
explicit `none` in every other case. -/
theorem safety_ratio_definedness (p : Params) :
    (compute_pnl p).safety_ratio =
      match (compute_pnl p).break_even_sales with
      | none => none
      | some b =>
          if 0 < b then some ((compute_pnl p).total_revenue / b) else none := by
  simp only [compute_pnl]
  rw [safety_ratio]
  cases hb : break_even_sales p with
  | none => rfl
  | some b =>
    show (if b ≠ 0 ∧ 0 < b then some (total_revenue p / b) else none) =
      (if 0 < b then some (total_revenue p / b) else none)
    by_cases h : 0 < b
    · rw [if_pos ⟨ne_of_gt h, h⟩, if_pos h]
    · rw [if_neg fun hc => h hc.2, if_neg h]

/-- C3: `compute_pnl` returns `gross_margin_pct = gross_profit / total_revenue`
when `total_revenue > 0`, and exactly `0` whenever `total_revenue` is not
strictly positive. -/
theorem gross_margin_pct_cases (p : Params) :
    (0 < (compute_pnl p).total_revenue →
      (compute_pnl p).gross_margin_pct =
        (compute_pnl p).gross_profit / (compute_pnl p).total_revenue) ∧
    (¬ 0 < (compute_pnl p).total_revenue →
      (compute_pnl p).gross_margin_pct = 0) := by
  refine ⟨fun h => ?_, fun h => ?_⟩
  · simp only [compute_pnl] at h ⊢
    rw [gross_margin_pct, if_pos h]
  · simp only [compute_pnl] at h ⊢
    rw [gross_margin_pct, if_neg h]

/-- C5: the code's labor decomposition
`gross_salaries + gross_salaries * (ss_factor - 1) + partner_cash_extra +
other_labor_cost` equals the reference formula
`(cook + partner) * ss_factor + partner_cash_extra + other_labor_cost`:
only the two gross salaries are scaled by `ss_factor`. -/
theorem labor_total_formula (p : Params) :
    (compute_pnl p).labor_total =
      (p.cook_gross_salary + p.partner_gross_salary) * p.ss_factor
        + p.partner_cash_extra + p.other_labor_cost := by
  simp only [compute_pnl, labor_total, labor_ss, gross_salaries]
  ring

/-- C7: whenever `break_even_sales` is defined, the break-even equation
`gross_margin_pct * break_even_sales - (labor_total + fixed_cost_total) = 0`
holds exactly, so a scenario with that revenue and the same cost structure
has zero ebitda. -/
theorem break_even_equation (p : Params) (b : ℚ)
    (hb : (compute_pnl p).break_even_sales = some b) :
    (compute_pnl p).gross_margin_pct * b
      - ((compute_pnl p).labor_total + (compute_pnl p).fixed_cost_total) = 0 := by
  simp only [compute_pnl] at hb ⊢
  rw [break_even_sales] at hb
  by_cases h : 0 < gross_margin_pct p
  · rw [if_pos h] at hb
    obtain rfl := (Option.some.injEq _ _).mp hb |>.symm
    rw [mul_div_cancel₀ _ (ne_of_gt h)]
    ring
  · rw [if_neg h] at hb
    exact absurd hb (by simp)

/-- C8: additivity of the three totals: `total_revenue` is the sum of the
three revenue lines, `total_food_cost` the sum of the three food-cost lines,
and `fixed_cost_total` the sum of its six inputs. -/
theorem totals_additive (p : Params) :
    (compute_pnl p).total_revenue =
      (compute_pnl p).rev_menu + (compute_pnl p).rev_cafe
        + (compute_pnl p).rev_shop ∧
    (compute_pnl p).total_food_cost =
      (compute_pnl p).food_menu + (compute_pnl p).food_cafe
        + (compute_pnl p).food_shop ∧
    (compute_pnl p).fixed_cost_total =
      p.rent + p.utilities + p.insurance + p.accounting
        + p.tpv_reservations + p.fixed_overheads :=
  ⟨rfl, rfl, rfl⟩

/-- C4: `compute_pnl` is total.  Re-running it with every division checked
(`none` marking a would-be `ZeroDivisionError`) always succeeds and returns
exactly `compute_pnl p`: every division is guarded, the only undefined
outcomes are the explicit `none` options, and over `ℚ` no defined field can
be `NaN` or infinite. -/
theorem compute_pnl_checked_total (p : Params) :
    compute_pnl_checked p = some (compute_pnl p) := by
  have h1 : (if 0 < total_revenue p then
        checkedDiv (gross_profit p) (total_revenue p)
      else some 0) = some (gross_margin_pct p) := by
    rw [gross_margin_pct]
    by_cases h : 0 < total_revenue p
    · rw [if_pos h, if_pos h, checkedDiv, if_neg (ne_of_gt h)]
    · rw [if_neg h, if_neg h]
  have h2 : ∀ g : ℚ, (if 0 < g then
        Option.bind (checkedDiv (labor_total p + fixed_cost_total p) g)
          fun v => some (some v)
      else some none) =
      some (if 0 < g then
        some ((labor_total p + fixed_cost_total p) / g)
      else none) := by
    intro g
    by_cases h : 0 < g
    · rw [if_pos h, if_pos h, checkedDiv, if_neg (ne_of_gt h)]
      rfl
    · rw [if_neg h, if_neg h]
  have h3 : ∀ o : Option ℚ, (match o with
      | none => some none
      | some b =>
        if b ≠ 0 ∧ 0 < b then
          Option.bind (checkedDiv (total_revenue p) b) fun v => some (some v)
        else
          some none) =
      some (match o with
      | none => none
      | some b =>
        if b ≠ 0 ∧ 0 < b then some (total_revenue p / b) else none) := by
    intro o
    cases o with
    | none => rfl
    | some b =>
      show (if b ≠ 0 ∧ 0 < b then
          Option.bind (checkedDiv (total_revenue p) b) fun v => some (some v)
        else
          some none) =
        some (if b ≠ 0 ∧ 0 < b then some (total_revenue p / b) else none)
      by_cases h : b ≠ 0 ∧ 0 < b
      · rw [if_pos h, if_pos h, checkedDiv, if_neg h.1]
        rfl
      · rw [if_neg h, if_neg h]
  unfold compute_pnl_checked
  rw [h1, Option.some_bind, h2, Option.some_bind, h3, Option.some_bind]
  rfl

/-- C6: for every base parameter set and every pair of deltas from the
`{-2, 0, 2}` grid, the sweep evaluates `compute_pnl` on a fresh parameter
set whose two swept fields are perturbed and floored at exactly `0`
(never negative) and whose remaining twenty fields equal the base's. -/
theorem sweep_cell_spec (base : Params) (dm ds : ℚ)
    (hdm : dm ∈ sweep_deltas) (hds : ds ∈ sweep_deltas) :
    (dm, ds, compute_pnl (sweep_params base dm ds)) ∈ sens_rows base ∧
    (sweep_params base dm ds).menus_per_day
      = max 0 (base.menus_per_day + dm) ∧
    (sweep_params base dm ds).shop_tickets_per_day
      = max 0 (base.shop_tickets_per_day + ds) ∧
    0 ≤ (sweep_params base dm ds).menus_per_day ∧
    0 ≤ (sweep_params base dm ds).shop_tickets_per_day ∧
    (sweep_params base dm ds).days_open_per_week = base.days_open_per_week ∧
    (sweep_params base dm ds).weeks_per_month = base.weeks_per_month ∧
    (sweep_params base dm ds).cafe_tickets_per_day
      = base.cafe_tickets_per_day ∧
    (sweep_params base dm ds).menu_price = base.menu_price ∧
    (sweep_params base dm ds).cafe_ticket = base.cafe_ticket ∧
    (sweep_params base dm ds).shop_ticket = base.shop_ticket ∧
    (sweep_params base dm ds).menu_food_cost_unit
      = base.menu_food_cost_unit ∧
    (sweep_params base dm ds).cafe_food_cost_pct = base.cafe_food_cost_pct ∧
    (sweep_params base dm ds).shop_food_cost_pct = base.shop_food_cost_pct ∧
    (sweep_params base dm ds).cook_gross_salary = base.cook_gross_salary ∧
    (sweep_params base dm ds).partner_gross_salary
      = base.partner_gross_salary ∧
    (sweep_params base dm ds).ss_factor = base.ss_factor ∧
    (sweep_params base dm ds).partner_cash_extra = base.partner_cash_extra ∧
    (sweep_params base dm ds).other_labor_cost = base.other_labor_cost ∧
    (sweep_params base dm ds).rent = base.rent ∧
    (sweep_params base dm ds).utilities = base.utilities ∧
    (sweep_params base dm ds).insurance = base.insurance ∧
    (sweep_params base dm ds).accounting = base.accounting ∧
    (sweep_params base dm ds).tpv_reservations = base.tpv_reservations ∧
    (sweep_params base dm ds).fixed_overheads = base.fixed_overheads := by
  refine ⟨?_, rfl, rfl, le_max_left 0 _, le_max_left 0 _, rfl, rfl, rfl, rfl,
    rfl, rfl, rfl, rfl, rfl, rfl, rfl, rfl, rfl, rfl, rfl, rfl, rfl, rfl,
    rfl, rfl⟩
  exact List.mem_flatMap.mpr ⟨dm, hdm, List.mem_map.mpr ⟨ds, hds, rfl⟩⟩

/-- C9: holding every other field fixed, a larger `menus_per_day` never
decreases `total_revenue` and never decreases `total_food_cost`, for
non-negative parameter sets. -/
theorem menus_monotone (p : Params) (m m' : ℚ)
    (hdays : 0 ≤ p.days_open_per_week) (hweeks : 0 ≤ p.weeks_per_month)
    (hprice : 0 ≤ p.menu_price) (hcost : 0 ≤ p.menu_food_cost_unit)
    (hm : m ≤ m') :
    (compute_pnl { p with menus_per_day := m }).total_revenue ≤
      (compute_pnl { p with menus_per_day := m' }).total_revenue ∧
    (compute_pnl { p with menus_per_day := m }).total_food_cost ≤
      (compute_pnl { p with menus_per_day := m' }).total_food_cost := by
  have hod : 0 ≤ p.days_open_per_week * p.weeks_per_month :=
    mul_nonneg hdays hweeks
  constructor
  · simp only [compute_pnl, total_revenue, rev_menu, rev_cafe, rev_shop,
      open_days]
    nlinarith [mul_nonneg (mul_nonneg (sub_nonneg.mpr hm) hprice) hod]
  · simp only [compute_pnl, total_food_cost, food_menu, food_cafe, food_shop,
      rev_cafe, rev_shop, open_days]
    nlinarith [mul_nonneg (mul_nonneg (sub_nonneg.mpr hm) hcost) hod]

/-- C10: with non-negative labor and fixed-cost fields, a defined
`break_even_sales` is non-negative, and a defined `safety_ratio` is strictly
positive with strictly positive `total_revenue`, so the degenerate case of a
strictly negative break-even point is unreachable in-domain. -/
theorem derived_metrics_signs (p : Params)
    (hcook : 0 ≤ p.cook_gross_salary) (hpart : 0 ≤ p.partner_gross_salary)
    (hss : 0 ≤ p.ss_factor) (hextra : 0 ≤ p.partner_cash_extra)
    (holc : 0 ≤ p.other_labor_cost) (hrent : 0 ≤ p.rent)
    (hutil : 0 ≤ p.utilities) (hins : 0 ≤ p.insurance)
    (hacc : 0 ≤ p.accounting) (htpv : 0 ≤ p.tpv_reservations)
    (hover : 0 ≤ p.fixed_overheads) :
    (∀ b, (compute_pnl p).break_even_sales = some b → 0 ≤ b) ∧
    (∀ s, (compute_pnl p).safety_ratio = some s →
      0 < s ∧ 0 < (compute_pnl p).total_revenue) := by
  have hL : 0 ≤ labor_total p := by
    rw [labor_total, labor_ss, gross_salaries]
    nlinarith
  have hF : 0 ≤ fixed_cost_total p := by
    rw [fixed_cost_total]
    linarith
  have htr : ∀ hg : 0 < gross_margin_pct p, 0 < total_revenue p := by
    intro hg
    by_contra htr
    rw [gross_margin_pct, if_neg htr] at hg
    exact lt_irrefl 0 hg
  constructor
  · intro b hb
    simp only [compute_pnl] at hb
    rw [break_even_sales] at hb
    by_cases hg : 0 < gross_margin_pct p
    · rw [if_pos hg] at hb
      obtain rfl := (Option.some.injEq _ _).mp hb |>.symm
      exact div_nonneg (add_nonneg hL hF) (le_of_lt hg)
    · rw [if_neg hg] at hb
      exact absurd hb (by simp)
  · intro s hs
    simp only [compute_pnl] at hs ⊢
    rw [safety_ratio] at hs
    cases hbe : break_even_sales p with
    | none =>
      rw [hbe] at hs
      exact absurd hs (by simp)
    | some b =>
      rw [hbe] at hs
      have hs' : (if b ≠ 0 ∧ 0 < b then some (total_revenue p / b) else none)
          = some s := hs
      by_cases hcond : b ≠ 0 ∧ 0 < b
      · rw [if_pos hcond] at hs'
        obtain rfl := (Option.some.injEq _ _).mp hs' |>.symm
        have hg : 0 < gross_margin_pct p := by
          by_contra hgn
          rw [break_even_sales, if_neg hgn] at hbe
          exact absurd hbe (by simp)
        exact ⟨div_pos (htr hg) hcond.2, htr hg⟩
      · rw [if_neg hcond] at hs'
        exact absurd hs' (by simp)

/-- Witness for `break_even_sales_definedness`: at the default parameters the
break-even point is defined by the quotient formula; at the all-zero
parameters (`total_revenue = 0`) it is `none`. -/
theorem break_even_sales_definedness_witness :
    (compute_pnl defaultParams).break_even_sales =
      some (((compute_pnl defaultParams).labor_total
        + (compute_pnl defaultParams).fixed_cost_total)
        / (compute_pnl defaultParams).gross_margin_pct) ∧
    (compute_pnl zeroParams).break_even_sales = none := by
  constructor
  · exact (break_even_sales_definedness defaultParams).1 (by
      norm_num [compute_pnl, gross_margin_pct, gross_profit, total_revenue,
        total_food_cost, rev_menu, rev_cafe, rev_shop, food_menu, food_cafe,
        food_shop, open_days, defaultParams])
  · exact (break_even_sales_definedness zeroParams).2.2 (by
      norm_num [compute_pnl, total_revenue, rev_menu, rev_cafe, rev_shop,
        open_days, zeroParams])

/-- Witness for `gross_margin_pct_cases`: the quotient branch at the default
parameters, the zero branch at the all-zero parameters. -/
theorem gross_margin_pct_cases_witness :
    (compute_pnl defaultParams).gross_margin_pct =
      (compute_pnl defaultParams).gross_profit
        / (compute_pnl defaultParams).total_revenue ∧
    (compute_pnl zeroParams).gross_margin_pct = 0 := by
  constructor
  · exact (gross_margin_pct_cases defaultParams).1 (by
      norm_num [compute_pnl, total_revenue, rev_menu, rev_cafe, rev_shop,
        open_days, defaultParams])
  · exact (gross_margin_pct_cases zeroParams).2 (by
      norm_num [compute_pnl, total_revenue, rev_menu, rev_cafe, rev_shop,
        open_days, zeroParams])

/-- Witness for `sweep_cell_spec`: the `(-2, -2)` cell over the default
parameters lands in the sweep and floors `18 - 2` to `16` menus and
`5 - 2` to `3` shop tickets. -/
theorem sweep_cell_spec_witness :
    ((-2 : ℚ), (-2 : ℚ),
        compute_pnl (sweep_params defaultParams (-2) (-2)))
      ∈ sens_rows defaultParams ∧
    (sweep_params defaultParams (-2) (-2)).menus_per_day = 16 ∧
    (sweep_params defaultParams (-2) (-2)).shop_tickets_per_day = 3 := by
  obtain ⟨h1, h2, h3, -⟩ := sweep_cell_spec defaultParams (-2) (-2)
    (by simp [sweep_deltas]) (by simp [sweep_deltas])
  refine ⟨h1, ?_, ?_⟩
  · rw [h2]
    norm_num [defaultParams, max_def]
  · rw [h3]
    norm_num [defaultParams, max_def]

/-- Witness for `break_even_equation` at the default parameters, whose
break-even point is `10244632 / 1195` euros. -/
theorem break_even_equation_witness :
    (compute_pnl defaultParams).break_even_sales
      = some (10244632 / 1195) ∧
    (compute_pnl defaultParams).gross_margin_pct * (10244632 / 1195)
      - ((compute_pnl defaultParams).labor_total
        + (compute_pnl defaultParams).fixed_cost_total) = 0 := by
  have hbe : (compute_pnl defaultParams).break_even_sales
      = some (10244632 / 1195) := by
    norm_num [compute_pnl, break_even_sales, gross_margin_pct, gross_profit,
      total_revenue, total_food_cost, rev_menu, rev_cafe, rev_shop, food_menu,
      food_cafe, food_shop, open_days, labor_total, labor_ss, gross_salaries,
      fixed_cost_total, defaultParams]
  exact ⟨hbe, break_even_equation defaultParams _ hbe⟩

/-- Witness for `menus_monotone`: raising the default 18 menus per day to 20
does not decrease revenue or food cost. -/
theorem menus_monotone_witness :
    (compute_pnl { defaultParams with menus_per_day := 18 }).total_revenue ≤
      (compute_pnl { defaultParams with menus_per_day := 20 }).total_revenue ∧
    (compute_pnl { defaultParams with menus_per_day := 18 }).total_food_cost ≤
      (compute_pnl { defaultParams with
        menus_per_day := 20 }).total_food_cost :=
  menus_monotone defaultParams 18 20 (by norm_num [defaultParams])
    (by norm_num [defaultParams]) (by norm_num [defaultParams])
    (by norm_num [defaultParams]) (by norm_num)

/-- Witness for `derived_metrics_signs` at the default parameters: the
break-even point `10244632 / 1195` is non-negative and the safety ratio
`51385 / 50096` is strictly positive alongside revenue. -/
theorem derived_metrics_signs_witness :
    0 ≤ (10244632 : ℚ) / 1195 ∧ 0 < (51385 : ℚ) / 50096 ∧
      0 < (compute_pnl defaultParams).total_revenue := by
  have hbe : (compute_pnl defaultParams).break_even_sales
      = some (10244632 / 1195) := by
    norm_num [compute_pnl, break_even_sales, gross_margin_pct, gross_profit,
      total_revenue, total_food_cost, rev_menu, rev_cafe, rev_shop, food_menu,
      food_cafe, food_shop, open_days, labor_total, labor_ss, gross_salaries,
      fixed_cost_total, defaultParams]
  have hsr : (compute_pnl defaultParams).safety_ratio
      = some (51385 / 50096) := by
    norm_num [compute_pnl, safety_ratio, break_even_sales, gross_margin_pct,
      gross_profit, total_revenue, total_food_cost, rev_menu, rev_cafe,
      rev_shop, food_menu, food_cafe, food_shop, open_days, labor_total,
      labor_ss, gross_salaries, fixed_cost_total, defaultParams]
  have h := derived_metrics_signs defaultParams (by norm_num [defaultParams])
    (by norm_num [defaultParams]) (by norm_num [defaultParams])
    (by norm_num [defaultParams]) (by norm_num [defaultParams])
    (by norm_num [defaultParams]) (by norm_num [defaultParams])
    (by norm_num [defaultParams]) (by norm_num [defaultParams])
    (by norm_num [defaultParams]) (by norm_num [defaultParams])
  obtain ⟨hsp, htr⟩ := h.2 _ hsr
  exact ⟨h.1 _ hbe, hsp, htr⟩
